import Mathlib

/-!
Verification of the nonlinear conjugate gradient driver
(`conjugate_gradient.py`, function `NCG`) of the
MachineLearningNumericalOptimization repository.

Real scalars are embedded as rationals (`ℚ`).  A scalar value that numpy
would render non-finite (`NaN`/`Inf`, e.g. the result of a division by
zero) is embedded as `none : Option ℚ`; likewise a vector poisoned by a
non-finite scalar is `none : Option (List ℚ)`.  The line searches live in
`line_search.py`, which is not part of the repository snapshot: they are
taken as abstract parameters of the loop (their contract is stated as
hypotheses where needed).  `np.linalg.norm` is irrational in general, so
the loop is likewise parametric in the norm function it uses.
-/

namespace CG

/-- Elementwise product summed: `u.T.dot(v)` for column vectors. -/
def dot (u v : List ℚ) : ℚ := (List.zipWith (fun a b => a * b) u v).sum

/-- Vector difference, `u - v`. -/
def vsub (u v : List ℚ) : List ℚ := List.zipWith (fun a b => a - b) u v

/-- Vector negation, `-u`. -/
def vneg (u : List ℚ) : List ℚ := u.map (fun a => -a)

/-- Vector sum, `u + v`. -/
def vadd (u v : List ℚ) : List ℚ := List.zipWith (fun a b => a + b) u v

/-- Scalar times vector, `c * u`. -/
def smul (c : ℚ) (u : List ℚ) : List ℚ := u.map (fun a => c * a)

/-- Scalar division as the numpy code performs it: a zero denominator
yields a non-finite float (`Inf` or `NaN`), embedded here as `none`. -/
def safeDiv (a b : ℚ) : Option ℚ := if b = 0 then none else some (a / b)

/-- Fletcher-Reeves: `beta = (ng / np.linalg.norm(past_g)) ** 2`
(line 236 of conjugate_gradient.py); `npg` is the norm of `past_g`. -/
def betaFR (ng npg : ℚ) : Option ℚ := (safeDiv ng npg).map (fun q => q ^ 2)

/-- Polak-Ribiere with clipping:
`beta = g.T.dot(g - past_g) / np.linalg.norm(past_g) ** 2` then
`beta = max(beta, 0)` (lines 238-239). -/
def betaPR (g past_g : List ℚ) (npg : ℚ) : Option ℚ :=
  (safeDiv (dot g (vsub g past_g)) (npg ^ 2)).map (fun b => max b 0)

/-- Hestenes-Stiefel:
`beta = g.T.dot(g - past_g) / (g - past_g).T.dot(past_d)` (line 241).
A non-finite `past_d` poisons the result. -/
def betaHS (g past_g : List ℚ) (past_d : Option (List ℚ)) : Option ℚ :=
  past_d.bind (fun pd => safeDiv (dot g (vsub g past_g)) (dot (vsub g past_g) pd))

/-- Dai-Yuan: `beta = ng ** 2 / (g - past_g).T.dot(past_d)` (line 243). -/
def betaDY (g past_g : List ℚ) (past_d : Option (List ℚ)) (ng : ℚ) : Option ℚ :=
  past_d.bind (fun pd => safeDiv (ng ^ 2) (dot (vsub g past_g) pd))

/-- The formula dispatch of lines 235-243: `if wf == 0` Fletcher-Reeves,
`elif wf == 1` Polak-Ribiere, `elif wf == 2` Hestenes-Stiefel, `else`
Dai-Yuan.  `wf` is any scalar that passed validation, not necessarily an
integer. -/
def computeBeta (wf : ℚ) (g past_g : List ℚ) (past_d : Option (List ℚ))
    (ng npg : ℚ) : Option ℚ :=
  if wf = 0 then betaFR ng npg
  else if wf = 1 then betaPR g past_g npg
  else if wf = 2 then betaHS g past_g past_d
  else betaDY g past_g past_d ng

/-- The restart test of line 229: `r_start > 0 and i % n * r_start == 0`.
In Python `%` and `*` share precedence and associate to the left, so the
second conjunct is `(i % n) * r_start == 0`. -/
def restartCond (r_start i n : ℕ) : Bool :=
  decide (0 < r_start) && decide (i % n * r_start = 0)

/-- A real scalar that may be `-np.inf` (the default of `m_inf`). -/
inductive QInf where
  | ninf : QInf
  | fin (q : ℚ) : QInf
deriving DecidableEq

/-- The comparison `v <= m_inf` of line 273: always false against `-inf`. -/
def vLeQInf (v : ℚ) : QInf → Bool
  | QInf.ninf => false
  | QInf.fin m => decide (v ≤ m)

/-- Terminal status of the driver (docstring lines 103-119). -/
inductive Status where
  | optimal : Status
  | unbounded : Status
  | stopped : Status
  | error : Status
deriving DecidableEq

/-- The externally observable string of each status. -/
def Status.toStr : Status → String
  | Status.optimal => "optimal"
  | Status.unbounded => "unbounded"
  | Status.stopped => "stopped"
  | Status.error => "error"

/-- What a line search hands back to the driver (source line 259:
`a, v, last_x, last_g, _, f_eval = ..._line_search(...)`). -/
structure LSResult where
  a : ℚ
  v : ℚ
  last_x : List ℚ
  last_g : List ℚ
  f_eval : ℕ
deriving DecidableEq

/-- Modelled from the spec: the line searches live in `line_search.py`,
which is absent from the repository snapshot, so a line search is an
abstract function of the arguments the driver computes per iteration:
direction `d` (non-finite directions are `none`), current point `x`, the
running evaluation counter `f_eval`, current value `v` and directional
derivative `phi_p0` (spec section 4.1-4.2).  The remaining arguments the
source passes (`f`, scratch buffers, `max_f_eval`, `min_a`, `sfgrd`,
`a_start = 1`, `m1`, `m2`, `tau`, `verbose`) are fixed over the run, so an
instance closes over them. -/
def LineSearchFun : Type :=
  Option (List ℚ) → List ℚ → ℕ → ℚ → Option ℚ → LSResult

/-- The configuration the loop of `NCG` reads (after validation), plus the
dimension `n = x.shape[0]` and the stopping scale `ng0` of lines 195-198. -/
structure NCGConfig where
  wf : ℚ
  r_start : ℕ
  eps : ℚ
  max_f_eval : ℕ
  m1 : ℚ
  m2 : ℚ
  tau : ℚ
  sfgrd : ℚ
  m_inf : QInf
  min_a : ℚ
  n : ℕ
  ng0 : ℚ
deriving DecidableEq

/-- `ng0` as lines 195-198 set it: `-ng` (norm of the first gradient) when
`eps < 0`, else `1` (un-scaled criterion). -/
def mkNg0 (eps ng : ℚ) : ℚ := if eps < 0 then -ng else 1

/-- The stopping test of line 213: `ng <= eps * ng0`. -/
def optimalCheck (ng eps ng0 : ℚ) : Bool := decide (ng ≤ eps * ng0)

/-- The mutable state of the `while True` loop (lines 203-290). -/
structure LoopState where
  x : List ℚ
  g : List ℚ
  v : ℚ
  ng : ℚ
  past_g : List ℚ
  past_d : Option (List ℚ)
  f_eval : ℕ
  i : ℕ
deriving DecidableEq

/-- The beta of a normal iteration (`i >= 2`), lines 229-243: a restart
forces `beta = 0`, otherwise the selected formula computes it. -/
def nextBeta (normF : List ℚ → ℚ) (cfg : NCGConfig) (s : LoopState) : Option ℚ :=
  if restartCond cfg.r_start s.i cfg.n then some 0
  else computeBeta cfg.wf s.g s.past_g s.past_d s.ng (normF s.past_g)

/-- The search direction of lines 224-250: `d = -g` on the first
iteration, else `d = -g + beta * past_d` when `beta != 0` and `d = -g`
when `beta == 0`.  A non-finite beta (numpy `NaN`/`Inf`) compares unequal
to 0 in Python, so it poisons the direction: `none`. -/
def nextDir (normF : List ℚ → ℚ) (cfg : NCGConfig) (s : LoopState) :
    Option (List ℚ) :=
  if s.i = 1 then some (vneg s.g)
  else
    match nextBeta normF cfg s with
    | none => none
    | some b =>
        if b = 0 then some (vneg s.g)
        else s.past_d.map (fun pd => vadd (vneg s.g) (smul b pd))

/-- The line-search call of lines 256-263: `phi_p0 = g.T.dot(d)`, then
`armijo_wolfe_line_search` when `0 < m2 < 1`, else
`backtracking_line_search`. -/
def lsCall (normF : List ℚ → ℚ) (cfg : NCGConfig) (aw bt : LineSearchFun)
    (s : LoopState) : LSResult :=
  let d := nextDir normF cfg s
  let phi_p0 := d.map (fun dv => dot s.g dv)
  if 0 < cfg.m2 ∧ cfg.m2 < 1 then aw d s.x s.f_eval s.v phi_p0
  else bt d s.x s.f_eval s.v phi_p0

/-- Outcome of one pass through the loop body: a terminal `break` with the
returned point and status, or the next state. -/
inductive StepRes where
  | done (x : List ℚ) (st : Status) : StepRes
  | next (s : LoopState) : StepRes
deriving DecidableEq

/-- One pass through the loop body (lines 204-290), with its checks in the
source's order: the optimality test (line 213), the budget test
(line 217), the direction and line search, the `a <= min_a` test
(line 269), the `v <= m_inf` test (line 273), else the state update of
lines 283-290.  Note the terminal breaks return the point `x` from before
the update of line 283. -/
def NCGstep (normF : List ℚ → ℚ) (cfg : NCGConfig) (aw bt : LineSearchFun)
    (s : LoopState) : StepRes :=
  if optimalCheck s.ng cfg.eps cfg.ng0 then StepRes.done s.x Status.optimal
  else if cfg.max_f_eval < s.f_eval then StepRes.done s.x Status.stopped
  else if (lsCall normF cfg aw bt s).a ≤ cfg.min_a then
    StepRes.done s.x Status.error
  else if vLeQInf (lsCall normF cfg aw bt s).v cfg.m_inf then
    StepRes.done s.x Status.unbounded
  else
    StepRes.next
      { x := (lsCall normF cfg aw bt s).last_x,
        g := (lsCall normF cfg aw bt s).last_g,
        v := (lsCall normF cfg aw bt s).v,
        ng := normF (lsCall normF cfg aw bt s).last_g,
        past_g := s.g, past_d := nextDir normF cfg s,
        f_eval := (lsCall normF cfg aw bt s).f_eval, i := s.i + 1 }

/-- The `while True` loop, driven by fuel (the source loop needs none: its
line searches consume at least one evaluation each, which the fuel bound
of the theorems below reflects). -/
def NCGloop (normF : List ℚ → ℚ) (cfg : NCGConfig) (aw bt : LineSearchFun) :
    ℕ → LoopState → Option (List ℚ × Status)
  | 0, _ => none
  | fuel + 1, s =>
      match NCGstep normF cfg aw bt s with
      | StepRes.done x st => some (x, st)
      | StepRes.next s' => NCGloop normF cfg aw bt fuel s'

/-- The arguments of `NCG` as the validation prologue (lines 121-179)
inspects them.  Python values carry their numpy classifications with
them, so each checked argument is paired with the boolean results of the
`np.isscalar` / `np.isreal` / `np.isrealobj` predicates the prologue
applies to it; `x_cols` is `x.shape[1]` and `n` is `x.shape[0]`. -/
structure NCGParams where
  x_isReal : Bool
  x_cols : ℕ
  n : ℕ
  wf : ℚ
  r_start_isScalar : Bool
  r_start : ℕ
  eps_isReal : Bool
  eps_isScalar : Bool
  eps : ℚ
  max_f_eval_isScalar : Bool
  max_f_eval : ℕ
  m1_isScalar : Bool
  m1 : ℚ
  m2_isScalar : Bool
  m2 : ℚ
  a_start_isScalar : Bool
  a_start : ℚ
  tau_isScalar : Bool
  tau : ℚ
  sfgrd_isScalar : Bool
  sfgrd : ℚ
  m_inf_isScalar : Bool
  m_inf : QInf
  min_a_isScalar : Bool
  min_a : ℚ
deriving DecidableEq

/-- The validation chain of lines 124-179, in source order, returning the
message of the first failing check (the source wraps each message in a
`ValueError` it then `return`s).  Line 152 of the source re-tests
`np.isscalar(m1)` under the message `m2 is not a real scalar`; line 157
tests `a_start < 0` under the message `a_start must be > 0`. -/
def validateNCG (p : NCGParams) : Option String :=
  if !p.x_isReal then some ("x not a real vector")
  else if p.x_cols ≠ 1 then some ("x is not a (column) vector")
  else if p.wf < 0 ∨ p.wf > 3 then some ("unknown NCG formula")
  else if !p.r_start_isScalar then some ("r_start is not an integer scalar")
  else if !p.eps_isReal ∨ !p.eps_isScalar then some ("eps is not a real scalar")
  else if !p.max_f_eval_isScalar then some ("max_f_eval is not an integer scalar")
  else if !p.m1_isScalar then some ("m1 is not a real scalar")
  else if p.m1 ≤ 0 ∨ p.m1 ≥ 1 then some ("m1 is not in (0,1)")
  else if !p.m1_isScalar then some ("m2 is not a real scalar")
  else if !p.a_start_isScalar then some ("a_start is not a real scalar")
  else if p.a_start < 0 then some ("a_start must be > 0")
  else if !p.tau_isScalar then some ("tau is not a real scalar")
  else if p.tau ≤ 0 ∨ p.tau ≥ 1 then some ("tau is not in (0,1)")
  else if !p.sfgrd_isScalar then some ("sfgrd is not a real scalar")
  else if p.sfgrd ≤ 0 ∨ p.sfgrd ≥ 1 then some ("sfgrd is not in (0,1)")
  else if !p.m_inf_isScalar then some ("m_inf is not a real scalar")
  else if !p.min_a_isScalar then some ("min_a is not a real scalar")
  else if p.min_a < 0 then some ("min_a is < 0")
  else none

/-- The defaults of the `NCG` signature (lines 8-9), applied to a
well-formed 2-dimensional real column-vector start: `wf=0`, `r_start=0`,
`eps=1e-6`, `max_f_eval=1000`, `m1=0.01`, `m2=0.9`, `a_start=1`,
`tau=0.9`, `sfgrd=0.01`, `m_inf=-np.inf`, `min_a=1e-16`; every argument a
real scalar. -/
def defaultParams : NCGParams where
  x_isReal := true
  x_cols := 1
  n := 2
  wf := 0
  r_start_isScalar := true
  r_start := 0
  eps_isReal := true
  eps_isScalar := true
  eps := 1 / 1000000
  max_f_eval_isScalar := true
  max_f_eval := 1000
  m1_isScalar := true
  m1 := 1 / 100
  m2_isScalar := true
  m2 := 9 / 10
  a_start_isScalar := true
  a_start := 1
  tau_isScalar := true
  tau := 9 / 10
  sfgrd_isScalar := true
  sfgrd := 1 / 100
  m_inf_isScalar := true
  m_inf := QInf.ninf
  min_a_isScalar := true
  min_a := 1 / 10000000000000000

/-- How a Python call ends: an exception propagates (`raised`), or the
function returns a value (`returned`). -/
inductive PyOutcome (α : Type) where
  | raised (msg : String) : PyOutcome α
  | returned (val : α) : PyOutcome α
deriving DecidableEq

/-- What `NCG` can hand back to its caller: a `ValueError` object
delivered as an ordinary return value (the prologue's `return
ValueError(...)` statements), or the pair `(x, status)` of line 296. -/
inductive NCGValue where
  | valueError (msg : String) : NCGValue
  | answer (x : List ℚ) (st : Status) : NCGValue
deriving DecidableEq

/-- `NCG` at the call boundary: the validation prologue runs first and
`return`s a `ValueError` value on the first failing check — it never
raises — otherwise the iteration phase (abstracted as `body`, lines
181-296) produces the returned pair. -/
def NCGrun (p : NCGParams) (body : NCGParams → List ℚ × Status) :
    PyOutcome NCGValue :=
  match validateNCG p with
  | some msg => PyOutcome.returned (NCGValue.valueError msg)
  | none => PyOutcome.returned (NCGValue.answer (body p).1 (body p).2)

/-- A concrete stand-in for `np.linalg.norm` used in closed evaluations
(the driver is parametric in the norm, so any concrete function serves). -/
def sqNorm (v : List ℚ) : ℚ := dot v v

/-- A concrete line search for closed evaluations: it accepts the unit
step and spends one function evaluation, as the simplest behaviour the
line-search contract allows. -/
def awStub : LineSearchFun := fun _ _ fe v _ =>
  { a := 1, v := v - 1, last_x := [], last_g := [], f_eval := fe + 1 }

/-- A second concrete line search, distinguishable from `awStub` by its
step, for closed evaluations of the dispatch. -/
def btStub : LineSearchFun := fun _ _ fe v _ =>
  { a := 2, v := v - 1, last_x := [], last_g := [], f_eval := fe + 1 }

/-- A concrete loop configuration matching `defaultParams`, with
dimension 2 and the absolute stopping scale `ng0 = 1`. -/
def cfgBase : NCGConfig where
  wf := 0
  r_start := 0
  eps := 1 / 1000000
  max_f_eval := 1000
  m1 := 1 / 100
  m2 := 9 / 10
  tau := 9 / 10
  sfgrd := 1 / 100
  m_inf := QInf.ninf
  min_a := 1 / 10000000000000000
  n := 2
  ng0 := 1

/-- A concrete mid-run loop state for closed evaluations: second
iteration, gradient `[2, 0]`, previous gradient `[1, 0]` (so `sqNorm`
gives `ng = 4`, `npg = 1`), previous direction `[1, 0]`. -/
def sBase : LoopState where
  x := [0, 0]
  g := [2, 0]
  v := 5
  ng := 4
  past_g := [1, 0]
  past_d := some [1, 0]
  f_eval := 2
  i := 2

/-- A concrete iteration phase for closed evaluations of the call
boundary `NCGrun`. -/
def haltBody : NCGParams → List ℚ × Status := fun _ => ([], Status.optimal)

/-- Inversion for a loop pass that continues: the optimality check was
false, the budget was not yet exceeded, and the new evaluation counter is
the one the line search returned. -/
theorem step_next_cases {normF : List ℚ → ℚ} {cfg : NCGConfig}
    {aw bt : LineSearchFun} {s s' : LoopState}
    (h : NCGstep normF cfg aw bt s = StepRes.next s') :
    optimalCheck s.ng cfg.eps cfg.ng0 = false ∧
    s.f_eval ≤ cfg.max_f_eval ∧
    s'.f_eval = (lsCall normF cfg aw bt s).f_eval := by
  unfold NCGstep at h
  by_cases h1 : optimalCheck s.ng cfg.eps cfg.ng0 = true
  case pos => rw [if_pos h1] at h; exact StepRes.noConfusion h
  rw [if_neg h1] at h
  by_cases h2 : cfg.max_f_eval < s.f_eval
  case pos => rw [if_pos h2] at h; exact StepRes.noConfusion h
  rw [if_neg h2] at h
  by_cases h3 : (lsCall normF cfg aw bt s).a ≤ cfg.min_a
  case pos => rw [if_pos h3] at h; exact StepRes.noConfusion h
  rw [if_neg h3] at h
  by_cases h4 : vLeQInf (lsCall normF cfg aw bt s).v cfg.m_inf = true
  case pos => rw [if_pos h4] at h; exact StepRes.noConfusion h
  rw [if_neg h4] at h
  injection h with h
  subst h
  exact ⟨Bool.not_eq_true _ ▸ h1, Nat.not_lt.mp h2, rfl⟩

/-- Unfolding equation of the fuelled loop at a successor. -/
theorem NCGloop_succ (normF : List ℚ → ℚ) (cfg : NCGConfig)
    (aw bt : LineSearchFun) (k : ℕ) (s : LoopState) :
    NCGloop normF cfg aw bt (k + 1) s =
      match NCGstep normF cfg aw bt s with
      | StepRes.done x st => some (x, st)
      | StepRes.next s' => NCGloop normF cfg aw bt k s' := rfl

/-- Claim C1 (code evaluation at the failing input): with dimension
`n = 2` and restart period `r_start = 3`, the restart test of line 229
already fires at iteration `i = 2`, although `2` is not a multiple of
`n * r_start = 6` — the test parses as `(i % n) * r_start == 0`, i.e. it
restarts whenever `n` divides `i`.  At that same state the selected
formula (Fletcher-Reeves here) would have produced `beta = 16`, so the
forced `beta = 0` is observable. -/
theorem restart_fires_off_schedule :
    restartCond 3 2 2 = true ∧ ¬ ((2 * 3 : ℕ) ∣ 2) ∧
    nextBeta sqNorm { cfgBase with r_start := 3 } sBase = some 0 ∧
    computeBeta cfgBase.wf sBase.g sBase.past_g sBase.past_d sBase.ng
      (sqNorm sBase.past_g) = some 16 := by
  refine ⟨by decide, by decide, ?_, ?_⟩
  · norm_num [nextBeta, restartCond, cfgBase, sBase]
  · norm_num [computeBeta, cfgBase, sBase, betaFR, safeDiv, sqNorm, dot]

/-- Claim C2, counterexample: with `g = [1, 0]`, `past_g = [0, 1]`,
`past_d = [0, 0]` the Hestenes-Stiefel and Dai-Yuan denominators are
exactly zero, and the computed beta is the non-finite `none`, not the
steepest-descent fallback `some 0` the claim asserts. -/
theorem hs_dy_degenerate_no_fallback_cex :
    dot (vsub [1, 0] [0, 1]) [0, 0] = 0 ∧
    computeBeta 2 [1, 0] [0, 1] (some [0, 0]) 1 1 = none ∧
    computeBeta 2 [1, 0] [0, 1] (some [0, 0]) 1 1 ≠ some 0 ∧
    computeBeta 3 [1, 0] [0, 1] (some [0, 0]) 1 1 = none ∧
    computeBeta 3 [1, 0] [0, 1] (some [0, 0]) 1 1 ≠ some 0 := by
  have h2 : computeBeta 2 [1, 0] [0, 1] (some [0, 0]) 1 1 = none := by
    norm_num [computeBeta, betaHS, safeDiv, dot, vsub]
  have h3 : computeBeta 3 [1, 0] [0, 1] (some [0, 0]) 1 1 = none := by
    norm_num [computeBeta, betaDY, safeDiv, dot, vsub]
  refine ⟨by norm_num [dot, vsub], h2, by rw [h2]; simp, h3, by rw [h3]; simp⟩

/-- Claim C2, as amended: whenever the denominator
`(g - past_g)ᵀ past_d` is zero, the Hestenes-Stiefel and Dai-Yuan
computations of lines 241 and 243 perform the division anyway and produce
a non-finite beta (`none`); there is no fallback to `beta = 0`. -/
theorem hs_dy_degenerate_not_finite (g pg pd : List ℚ) (ng npg : ℚ)
    (h : dot (vsub g pg) pd = 0) :
    computeBeta 2 g pg (some pd) ng npg = none ∧
    computeBeta 3 g pg (some pd) ng npg = none := by
  constructor <;> norm_num [computeBeta, betaHS, betaDY, safeDiv, h]

/-- Claim C2, witness: the amended statement at a concrete degenerate
input. -/
theorem hs_dy_degenerate_not_finite_w :
    computeBeta 2 [1, 0] [0, 1] (some [0, 0]) 5 7 = none ∧
    computeBeta 3 [1, 0] [0, 1] (some [0, 0]) 5 7 = none :=
  hs_dy_degenerate_not_finite [1, 0] [0, 1] [0, 0] 5 7 (by norm_num [dot, vsub])

/-- Claim C3 (code evaluation at the failing input): calling `NCG` with
`m1 = 2` (outside `(0, 1)`) makes the prologue deliver the `ValueError`
to the caller as an ordinary return value — before any iteration runs —
and no exception is ever raised. -/
theorem config_error_returned_not_raised :
    NCGrun { defaultParams with m1 := 2 } haltBody =
      PyOutcome.returned (NCGValue.valueError ("m1 is not in (0,1)")) ∧
    ∀ msg, NCGrun { defaultParams with m1 := 2 } haltBody ≠ PyOutcome.raised msg := by
  have hv : validateNCG { defaultParams with m1 := 2 } =
      some ("m1 is not in (0,1)") := by
    norm_num [validateNCG, defaultParams]
  constructor
  · rw [NCGrun, hv]
  · intro msg hmsg
    rw [NCGrun, hv] at hmsg
    exact PyOutcome.noConfusion hmsg

/-- Claim C4: any nonzero real scalar `eps` passes validation, and the
`Optimal` test compares `ng` against `eps * ng0` where `ng0 = 1` for
`eps > 0` (absolute criterion) and `ng0` is the negated initial gradient
norm for `eps < 0`, so the test becomes `ng <= (-eps) * ng0`
(relative criterion). -/
theorem eps_accepted_ng0_criterion (e n0 ng : ℚ) (hne : e ≠ 0) :
    validateNCG { defaultParams with eps := e } = none ∧
    (0 < e → mkNg0 e n0 = 1 ∧
      (optimalCheck ng e (mkNg0 e n0) = true ↔ ng ≤ e)) ∧
    (e < 0 → mkNg0 e n0 = -n0 ∧
      (optimalCheck ng e (mkNg0 e n0) = true ↔ ng ≤ -e * n0)) := by
  refine ⟨?_, ?_, ?_⟩
  · norm_num [validateNCG, defaultParams]
  · intro he
    have hnl : ¬ e < 0 := not_lt.mpr he.le
    exact ⟨by simp [mkNg0, hnl], by simp [optimalCheck, mkNg0, hnl]⟩
  · intro he
    refine ⟨by simp [mkNg0, he], ?_⟩
    simp only [optimalCheck, mkNg0, if_pos he, decide_eq_true_eq]
    rw [mul_neg, ← neg_mul]

/-- Claim C4, witness: the relative criterion at `eps = -2`, initial norm
`7`, current norm `3`. -/
theorem eps_accepted_ng0_criterion_w :
    validateNCG { defaultParams with eps := (-2 : ℚ) } = none ∧
    mkNg0 (-2) 7 = -7 ∧
    (optimalCheck 3 (-2) (mkNg0 (-2) 7) = true ↔ (3 : ℚ) ≤ -(-2) * 7) :=
  ⟨(eps_accepted_ng0_criterion (-2) 7 3 (by norm_num)).1,
    ((eps_accepted_ng0_criterion (-2) 7 3 (by norm_num)).2.2 (by norm_num)).1,
    ((eps_accepted_ng0_criterion (-2) 7 3 (by norm_num)).2.2 (by norm_num)).2⟩

/-- Claim C5, counterexample: at a state whose gradient criterion holds
while the evaluation counter (10) already exceeds `max_f_eval = 3`, the
loop terminates `optimal`, not `stopped` — the budget check of line 217
runs after the optimality check of line 213, so exceeding the budget does
not yield `stopped` regardless of the gradient criterion. -/
theorem budget_excess_optimal_first_cex :
    ({ cfgBase with max_f_eval := 3 } : NCGConfig).max_f_eval <
      ({ sBase with ng := 0, f_eval := 10 } : LoopState).f_eval ∧
    NCGstep sqNorm { cfgBase with max_f_eval := 3 } awStub btStub
        { sBase with ng := 0, f_eval := 10 } =
      StepRes.done ({ sBase with ng := 0, f_eval := 10 } : LoopState).x
        Status.optimal ∧
    NCGstep sqNorm { cfgBase with max_f_eval := 3 } awStub btStub
        { sBase with ng := 0, f_eval := 10 } ≠
      StepRes.done ({ sBase with ng := 0, f_eval := 10 } : LoopState).x
        Status.stopped := by
  refine ⟨by norm_num [cfgBase, sBase], ?_, ?_⟩
  · simp [NCGstep, cfgBase, sBase, optimalCheck]
  · simp [NCGstep, cfgBase, sBase, optimalCheck]

/-- Claim C5, as amended: provided each line search consumes a
non-negative number of evaluations, the counter is non-decreasing across
every continuing pass of the loop; and a pass whose counter exceeds
`max_f_eval` terminates with `stopped` whenever the gradient criterion
does not hold at that check (if it holds, the `Optimal` check fires
first). -/
theorem feval_monotone_budget_stop (normF : List ℚ → ℚ) (cfg : NCGConfig)
    (aw bt : LineSearchFun)
    (haw : ∀ d x fe v p, fe ≤ (aw d x fe v p).f_eval)
    (hbt : ∀ d x fe v p, fe ≤ (bt d x fe v p).f_eval) :
    (∀ s s', NCGstep normF cfg aw bt s = StepRes.next s' →
      s.f_eval ≤ s'.f_eval) ∧
    (∀ s, optimalCheck s.ng cfg.eps cfg.ng0 = false →
      cfg.max_f_eval < s.f_eval →
      NCGstep normF cfg aw bt s = StepRes.done s.x Status.stopped) := by
  constructor
  · intro s s' h
    obtain ⟨-, -, hfe⟩ := step_next_cases h
    rw [hfe]
    simp only [lsCall]
    split
    · exact haw _ _ _ _ _
    · exact hbt _ _ _ _ _
  · intro s h1 h2
    simp [NCGstep, h1, h2]

/-- Claim C5, witness: the `stopped` exit at a concrete
budget-exhausted, non-optimal state. -/
theorem feval_monotone_budget_stop_w :
    NCGstep sqNorm { cfgBase with max_f_eval := 3 } awStub btStub
        { sBase with f_eval := 10 } =
      StepRes.done ({ sBase with f_eval := 10 } : LoopState).x Status.stopped :=
  (feval_monotone_budget_stop sqNorm { cfgBase with max_f_eval := 3 }
      awStub btStub (fun _ _ fe _ _ => Nat.le_succ fe)
      (fun _ _ fe _ _ => Nat.le_succ fe)).2
    { sBase with f_eval := 10 }
    (by norm_num [optimalCheck, cfgBase, sBase]) (by norm_num [cfgBase, sBase])

/-- Claim C6: the Armijo-Wolfe search is the one a loop pass invokes
exactly when `0 < m2 < 1`, and the Backtracking search otherwise: for any
state whatsoever, the pass outcome is independent of the Backtracking
argument when `0 < m2 < 1`, and independent of the Armijo-Wolfe argument
when not — nothing besides `m2` affects the selection. -/
theorem line_search_dispatch_m2_only (normF : List ℚ → ℚ) (cfg : NCGConfig)
    (aw aw' bt bt' : LineSearchFun) (s : LoopState) :
    (0 < cfg.m2 ∧ cfg.m2 < 1 →
      NCGstep normF cfg aw bt s = NCGstep normF cfg aw bt' s) ∧
    (¬(0 < cfg.m2 ∧ cfg.m2 < 1) →
      NCGstep normF cfg aw bt s = NCGstep normF cfg aw' bt s) := by
  constructor
  · intro hm
    have hls : lsCall normF cfg aw bt s = lsCall normF cfg aw bt' s := by
      simp only [lsCall, if_pos hm]
    unfold NCGstep
    rw [hls]
  · intro hm
    have hls : lsCall normF cfg aw bt s = lsCall normF cfg aw' bt s := by
      simp only [lsCall, if_neg hm]
    unfold NCGstep
    rw [hls]

/-- Claim C7 (code evaluation at the failing input): `a_start = 0` passes
validation untouched — the guard of line 157 tests `a_start < 0` although
its own message demands `a_start > 0` — while `a_start = -1` is
rejected with exactly that message. -/
theorem a_start_zero_passes_validation :
    validateNCG { defaultParams with a_start := 0 } = none ∧
    validateNCG { defaultParams with a_start := -1 } =
      some ("a_start must be > 0") := by
  constructor <;> norm_num [validateNCG, defaultParams]

/-- Claim C8: once entered, the loop never fails to return — given line
searches that consume at least one evaluation per call (the contract of
the external `line_search.py`, per the docstring of `max_f_eval`), enough
fuel always yields `some (x, status)` with the status one of the four
observable strings — and the terminal checks apply in the fixed order:
`Optimal` before everything, then budget `Stopped`, then `a <= min_a`
giving `Error`, then `v <= m_inf` giving `Unbounded`. -/
theorem run_returns_status_check_order (normF : List ℚ → ℚ) (cfg : NCGConfig)
    (aw bt : LineSearchFun)
    (haw : ∀ d x fe v p, fe + 1 ≤ (aw d x fe v p).f_eval)
    (hbt : ∀ d x fe v p, fe + 1 ≤ (bt d x fe v p).f_eval) :
    (∀ fuel s, cfg.max_f_eval + 2 ≤ fuel + s.f_eval → 1 ≤ fuel →
      ∃ x st, NCGloop normF cfg aw bt fuel s = some (x, st) ∧
        (st.toStr = "optimal" ∨ st.toStr = "unbounded" ∨
          st.toStr = "stopped" ∨ st.toStr = "error")) ∧
    (∀ s, optimalCheck s.ng cfg.eps cfg.ng0 = true →
      NCGstep normF cfg aw bt s = StepRes.done s.x Status.optimal) ∧
    (∀ s, optimalCheck s.ng cfg.eps cfg.ng0 = false →
      cfg.max_f_eval < s.f_eval →
      NCGstep normF cfg aw bt s = StepRes.done s.x Status.stopped) ∧
    (∀ s, optimalCheck s.ng cfg.eps cfg.ng0 = false →
      s.f_eval ≤ cfg.max_f_eval →
      (lsCall normF cfg aw bt s).a ≤ cfg.min_a →
      NCGstep normF cfg aw bt s = StepRes.done s.x Status.error) ∧
    (∀ s, optimalCheck s.ng cfg.eps cfg.ng0 = false →
      s.f_eval ≤ cfg.max_f_eval →
      cfg.min_a < (lsCall normF cfg aw bt s).a →
      vLeQInf (lsCall normF cfg aw bt s).v cfg.m_inf = true →
      NCGstep normF cfg aw bt s = StepRes.done s.x Status.unbounded) := by
  have hmono : ∀ s s', NCGstep normF cfg aw bt s = StepRes.next s' →
      s.f_eval ≤ cfg.max_f_eval ∧ s.f_eval + 1 ≤ s'.f_eval := by
    intro s s' h
    obtain ⟨-, hle, hfe⟩ := step_next_cases h
    refine ⟨hle, ?_⟩
    rw [hfe]
    simp only [lsCall]
    split
    · exact haw _ _ _ _ _
    · exact hbt _ _ _ _ _
  refine ⟨?_, ?_, ?_, ?_, ?_⟩
  · intro fuel
    induction fuel with
    | zero => intro s hb h1; omega
    | succ k ih =>
      intro s hb h1
      cases hstep : NCGstep normF cfg aw bt s with
      | done x st =>
        refine ⟨x, st, ?_, ?_⟩
        · rw [NCGloop_succ, hstep]
        · cases st <;> simp [Status.toStr]
      | next s' =>
        obtain ⟨hle, hinc⟩ := hmono s s' hstep
        obtain ⟨x, st, hl, hst⟩ := ih s' (by omega) (by omega)
        refine ⟨x, st, ?_, hst⟩
        rw [NCGloop_succ, hstep]
        exact hl
  · intro s h1
    simp [NCGstep, h1]
  · intro s h1 h2
    simp [NCGstep, h1, h2]
  · intro s h1 h2 h3
    simp [NCGstep, h1, Nat.not_lt.mpr h2, h3]
  · intro s h1 h2 h3 h4
    simp [NCGstep, h1, Nat.not_lt.mpr h2, not_le.mpr h3, h4]

/-- Claim C8, witness: a concrete bounded run that returns a point and
one of the four statuses. -/
theorem run_returns_status_check_order_w :
    ∃ x st, NCGloop sqNorm { cfgBase with max_f_eval := 5 } awStub btStub 6
        sBase = some (x, st) ∧
      (st.toStr = "optimal" ∨ st.toStr = "unbounded" ∨ st.toStr = "stopped" ∨
        st.toStr = "error") :=
  (run_returns_status_check_order sqNorm { cfgBase with max_f_eval := 5 }
      awStub btStub (fun _ _ fe _ _ => Nat.le_refl (fe + 1))
      (fun _ _ fe _ _ => Nat.le_refl (fe + 1))).1 6 sBase
    (by norm_num [cfgBase, sBase]) (by norm_num)

/-- Claim C9: every scalar `wf` with `0 <= wf <= 3` passes validation —
integrality is never required — and any such `wf` other than exactly
`0`, `1` or `2` is dispatched to the Dai-Yuan formula by the `elif`
chain of lines 235-243. -/
theorem wf_noninteger_dispatches_dai_yuan (wf : ℚ) (g pg : List ℚ)
    (pd : Option (List ℚ)) (ng npg : ℚ)
    (h0 : 0 ≤ wf) (h3 : wf ≤ 3) (hn0 : wf ≠ 0) (hn1 : wf ≠ 1) (hn2 : wf ≠ 2) :
    validateNCG { defaultParams with wf := wf } = none ∧
    computeBeta wf g pg pd ng npg = betaDY g pg pd ng := by
  constructor
  · norm_num [validateNCG, defaultParams, not_lt.mpr h0, not_lt.mpr h3]
  · simp [computeBeta, hn0, hn1, hn2]

/-- Claim C9, witness: `wf = 3/2` is accepted and dispatched to
Dai-Yuan. -/
theorem wf_noninteger_dispatches_dai_yuan_w :
    validateNCG { defaultParams with wf := 3 / 2 } = none ∧
    computeBeta (3 / 2) [1] [2] (some [3]) 4 5 = betaDY [1] [2] (some [3]) 4 :=
  wf_noninteger_dispatches_dai_yuan (3 / 2) [1] [2] (some [3]) 4 5
    (by norm_num) (by norm_num) (by norm_num) (by norm_num) (by norm_num)

/-- Claim C10: validation never inspects `m2` — its outcome is invariant
under any change of `m2`'s value or scalar classification — and the
message `m2 is not a real scalar` is unreachable, because the guard that
carries it re-tests `np.isscalar(m1)`, which the earlier `m1` guard
already returned on. -/
theorem m2_never_validated (p : NCGParams) (q : ℚ) (b : Bool) :
    validateNCG { p with m2 := q, m2_isScalar := b } = validateNCG p ∧
    validateNCG p ≠ some ("m2 is not a real scalar") := by
  constructor
  · rfl
  · intro h
    unfold validateNCG at h
    by_cases h1 : (!p.x_isReal) = true
    case pos => rw [if_pos h1] at h; exact absurd (Option.some.inj h) (by decide)
    rw [if_neg h1] at h
    by_cases h2 : p.x_cols ≠ 1
    case pos => rw [if_pos h2] at h; exact absurd (Option.some.inj h) (by decide)
    rw [if_neg h2] at h
    by_cases h3 : p.wf < 0 ∨ p.wf > 3
    case pos => rw [if_pos h3] at h; exact absurd (Option.some.inj h) (by decide)
    rw [if_neg h3] at h
    by_cases h4 : (!p.r_start_isScalar) = true
    case pos => rw [if_pos h4] at h; exact absurd (Option.some.inj h) (by decide)
    rw [if_neg h4] at h
    by_cases h5 : (!p.eps_isReal) = true ∨ (!p.eps_isScalar) = true
    case pos => rw [if_pos h5] at h; exact absurd (Option.some.inj h) (by decide)
    rw [if_neg h5] at h
    by_cases h6 : (!p.max_f_eval_isScalar) = true
    case pos => rw [if_pos h6] at h; exact absurd (Option.some.inj h) (by decide)
    rw [if_neg h6] at h
    by_cases h7 : (!p.m1_isScalar) = true
    case pos => rw [if_pos h7] at h; exact absurd (Option.some.inj h) (by decide)
    rw [if_neg h7] at h
    by_cases h8 : p.m1 ≤ 0 ∨ p.m1 ≥ 1
    case pos => rw [if_pos h8] at h; exact absurd (Option.some.inj h) (by decide)
    rw [if_neg h8] at h
    rw [if_neg h7] at h
    by_cases h10 : (!p.a_start_isScalar) = true
    case pos => rw [if_pos h10] at h; exact absurd (Option.some.inj h) (by decide)
    rw [if_neg h10] at h
    by_cases h11 : p.a_start < 0
    case pos => rw [if_pos h11] at h; exact absurd (Option.some.inj h) (by decide)
    rw [if_neg h11] at h
    by_cases h12 : (!p.tau_isScalar) = true
    case pos => rw [if_pos h12] at h; exact absurd (Option.some.inj h) (by decide)
    rw [if_neg h12] at h
    by_cases h13 : p.tau ≤ 0 ∨ p.tau ≥ 1
    case pos => rw [if_pos h13] at h; exact absurd (Option.some.inj h) (by decide)
    rw [if_neg h13] at h
    by_cases h14 : (!p.sfgrd_isScalar) = true
    case pos => rw [if_pos h14] at h; exact absurd (Option.some.inj h) (by decide)
    rw [if_neg h14] at h
    by_cases h15 : p.sfgrd ≤ 0 ∨ p.sfgrd ≥ 1
    case pos => rw [if_pos h15] at h; exact absurd (Option.some.inj h) (by decide)
    rw [if_neg h15] at h
    by_cases h16 : (!p.m_inf_isScalar) = true
    case pos => rw [if_pos h16] at h; exact absurd (Option.some.inj h) (by decide)
    rw [if_neg h16] at h
    by_cases h17 : (!p.min_a_isScalar) = true
    case pos => rw [if_pos h17] at h; exact absurd (Option.some.inj h) (by decide)
    rw [if_neg h17] at h
    by_cases h18 : p.min_a < 0
    case pos => rw [if_pos h18] at h; exact absurd (Option.some.inj h) (by decide)
    rw [if_neg h18] at h
    exact Option.noConfusion h

end CG
